import Mathlib

/-!
Verification of the wazuh repository fragment:
  * `src/integrations/slack.py` — the Slack webhook notifier pipeline
    (`main`, `process_args`, `generate_msg`, `get_json_alert`,
    `get_json_options`), and
  * `src/api/api/models/active_response_model.py` — the `ActiveResponse`
    command record.

The Python code is shallowly embedded: JSON values (and Python dicts
produced by `json.load`) become the inductive type `Json`; dicts are
insertion-ordered association lists with unique keys, mutation
`d[k] = v` is `setKey` (replace in place, else append); process
side effects (file reads, `sys.exit`, HTTP POST, log writes) become an
explicit file-system parameter, a `ProcResult` outcome, and a trace of
emitted log/console lines.
-/

/-- A JSON value, as produced by Python's `json.load`.  Objects are
insertion-ordered association lists (Python dicts).  Numbers are
restricted to integers, which covers every value the claims quantify
over (`rule.level` is compared as an integer). -/
inductive Json where
  | null : Json
  | bool : Bool → Json
  | int : Int → Json
  | str : String → Json
  | arr : List Json → Json
  | obj : List (String × Json) → Json

/-- Python dict read `d[k]` / `d.get(k)` on an association list:
first binding wins (lists built by the embedding keep keys unique). -/
def getKey : List (String × Json) → String → Option Json
  | [], _ => none
  | (k', v) :: rest, k => if k' = k then some v else getKey rest k

/-- Python dict write `d[k] = v`: replace the value in place if the key
is present (keeping its position), otherwise append the new binding. -/
def setKey : List (String × Json) → String → Json → List (String × Json)
  | [], k, v => [(k, v)]
  | (k', v') :: rest, k, v =>
      if k' = k then (k', v) :: rest else (k', v') :: setKey rest k v

/-- Subscript access `j[k]` (also used for membership tests `k in j`):
`some` exactly when `j` is an object containing key `k`.  On non-objects
the Python subscript raises; the embedding returns `none` there, which
the callers treat as the raised exception. -/
def Json.lookup? : Json → String → Option Json
  | .obj kvs, k => getKey kvs k
  | _, _ => none

/-- The integer value of a JSON value when Python would treat it as an
`int` in arithmetic comparisons (`bool` is an `int` subtype in Python).
`none` models the `TypeError` a comparison with any other value raises. -/
def Json.asInt? : Json → Option Int
  | .int n => some n
  | .bool b => some (if b then 1 else 0)
  | _ => none

/-- Python truthiness of a JSON value (`if options:`). -/
def Json.truthy : Json → Bool
  | .null => false
  | .bool b => b
  | .int n => n != 0
  | .str s => s != ""
  | .arr xs => !xs.isEmpty
  | .obj kvs => !kvs.isEmpty

/-- Lower-case hexadecimal digit. -/
def hexDigit (n : Nat) : Char :=
  if n < 10 then Char.ofNat (48 + n) else Char.ofNat (87 + n)

/-- Two lower-case hex digits (Python `\xhh` escapes). -/
def hex2 (n : Nat) : String :=
  String.mk [hexDigit (n / 16 % 16), hexDigit (n % 16)]

/-- Four lower-case hex digits (JSON `\uhhhh` escapes). -/
def hex4 (n : Nat) : String :=
  String.mk [hexDigit (n / 4096 % 16), hexDigit (n / 256 % 16),
             hexDigit (n / 16 % 16), hexDigit (n % 16)]

/-- Python `repr` of one character of a string, given the chosen quote
character `q`: escape the backslash, the delimiter, and the common
control characters; other control bytes become `\xhh`.  (Unprintable
characters above `0x7f` are kept verbatim; no claim depends on them.) -/
def pyReprChar (q : Char) (c : Char) : String :=
  if c = Char.ofNat 92 then "\\\\"
  else if c = q then "\\" ++ String.singleton q
  else if c = Char.ofNat 10 then "\\n"
  else if c = Char.ofNat 13 then "\\r"
  else if c = Char.ofNat 9 then "\\t"
  else if c.toNat < 32 ∨ c.toNat = 127 then "\\x" ++ hex2 c.toNat
  else String.singleton c

/-- Python `repr` of a string: single-quoted, unless the string contains
a single quote and no double quote. -/
def pyReprStr (s : String) : String :=
  let q : Char :=
    if s.data.contains (Char.ofNat 39) && !(s.data.contains (Char.ofNat 34))
    then Char.ofNat 34 else Char.ofNat 39
  String.singleton q ++ String.join (s.data.map (pyReprChar q))
    ++ String.singleton q

mutual

/-- Python `repr()` of a JSON value (`None`, `True`, decimal integers,
quoted strings, bracketed lists, braced dicts). -/
def pyRepr : Json → String
  | .null => "None"
  | .bool true => "True"
  | .bool false => "False"
  | .int n => toString n
  | .str s => pyReprStr s
  | .arr xs => "[" ++ pyReprList xs ++ "]"
  | .obj kvs => "\x7b" ++ pyReprObj kvs ++ "\x7d"

/-- `repr` of the comma-separated elements of a Python list. -/
def pyReprList : List Json → String
  | [] => ""
  | [x] => pyRepr x
  | x :: y :: rest => pyRepr x ++ ", " ++ pyReprList (y :: rest)

/-- `repr` of the comma-separated items of a Python dict. -/
def pyReprObj : List (String × Json) → String
  | [] => ""
  | [(k, v)] => pyReprStr k ++ ": " ++ pyRepr v
  | (k, v) :: x :: rest => pyReprStr k ++ ": " ++ pyRepr v ++ ", " ++ pyReprObj (x :: rest)

end

/-- Python `str()` of a JSON value, as used by `"...".format(...)` and
by `debug(...)`: the string itself for strings, `repr` otherwise. -/
def pyStr : Json → String
  | .str s => s
  | j => pyRepr j

/-- `json.dumps` escape of one string character (`ensure_ascii=True`):
JSON short escapes, `\u00hh` for other control bytes, `\uhhhh` for
non-ASCII (surrogate pairs above the BMP). -/
def jsonEscapeChar (c : Char) : String :=
  if c = Char.ofNat 34 then "\\\""
  else if c = Char.ofNat 92 then "\\\\"
  else if c = Char.ofNat 10 then "\\n"
  else if c = Char.ofNat 13 then "\\r"
  else if c = Char.ofNat 9 then "\\t"
  else if c = Char.ofNat 8 then "\\b"
  else if c = Char.ofNat 12 then "\\f"
  else if c.toNat < 32 then "\\u" ++ hex4 c.toNat
  else if c.toNat < 127 then String.singleton c
  else if c.toNat ≤ 65535 then "\\u" ++ hex4 c.toNat
  else "\\u" ++ hex4 (55296 + (c.toNat - 65536) / 1024)
       ++ "\\u" ++ hex4 (56320 + (c.toNat - 65536) % 1024)

/-- `json.dumps` escaping of a whole string (without the delimiters). -/
def jsonEscape (s : String) : String :=
  String.join (s.data.map jsonEscapeChar)

mutual

/-- `json.dumps` with its default arguments: item separator `", "`,
key separator `": "`, `ensure_ascii=True`. -/
def Json.dumps : Json → String
  | .null => "null"
  | .bool true => "true"
  | .bool false => "false"
  | .int n => toString n
  | .str s => "\"" ++ jsonEscape s ++ "\""
  | .arr xs => "[" ++ dumpsList xs ++ "]"
  | .obj kvs => "\x7b" ++ dumpsObj kvs ++ "\x7d"

/-- `json.dumps` of the comma-separated elements of an array. -/
def dumpsList : List Json → String
  | [] => ""
  | [x] => Json.dumps x
  | x :: y :: rest => Json.dumps x ++ ", " ++ dumpsList (y :: rest)

/-- `json.dumps` of the comma-separated members of an object. -/
def dumpsObj : List (String × Json) → String
  | [] => ""
  | [(k, v)] => "\"" ++ jsonEscape k ++ "\": " ++ Json.dumps v
  | (k, v) :: x :: rest =>
      "\"" ++ jsonEscape k ++ "\": " ++ Json.dumps v ++ ", " ++ dumpsObj (x :: rest)

end

/-! ### The notifier pipeline of `src/integrations/slack.py` -/

/-- Index of the alert-file path in the argument vector (`ALERT_INDEX`). -/
def ALERT_INDEX : Nat := 1

/-- Index of the webhook URL in the argument vector (`WEBHOOK_INDEX`). -/
def WEBHOOK_INDEX : Nat := 3

/-- What reading a path from the file system yields: the file is absent
(`open` raises `FileNotFoundError`), its contents are not valid JSON
(`json.load` raises `JSONDecodeError`, carrying the decoder's error
text), or it parses to a JSON value.  The file system is passed to the
pipeline as a function from paths to this type. -/
inductive FileRead where
  | missing : FileRead
  | badJson : String → FileRead
  | json : Json → FileRead

/-- Result of one of the `get_json_*` loaders: either the parsed value,
or process termination with an exit code after emitting a debug line. -/
inductive LoadResult where
  | ok : Json → LoadResult
  | exit : Nat → String → LoadResult

/-- Outcome of a pipeline invocation: `sys.exit(code)`, an uncaught
exception propagated out of `process_args` (re-raised by `main`), or the
HTTP POST of the serialized message to the webhook URL. -/
inductive ProcResult where
  | exited : Nat → ProcResult
  | excRaised : ProcResult
  | sent : String → String → ProcResult

/-- The line `debug(m)` emits, `"{0}: {1}\n".format(now, msg)`.  The
trace in this embedding records each emitted line once; whether it is
echoed to the console, written to the log file, or both, depends only on
the `debug_enabled` / `debug_console` flags and not on the content. -/
def dmsg (now m : String) : String := now ++ ": " ++ m ++ "\n"

/-- The option-file discovery test `args[idx][-7:] == "options"`
(Python's `s[-7:]` is the whole string when `len(s) < 7`, and so is
`String.takeRight s 7`). -/
def ends_with_options (s : String) : Bool := String.takeRight s 7 == "options"

/-- The scan `for idx in range(4, len(args))` that takes the first
argument ending in `options` as the options-file path, keeping the
initial value `''` when none matches. -/
def find_options_file_location (args : List String) : String :=
  match (args.drop 4).find? ends_with_options with
  | some a => a
  | none => ""

/-- `get_json_alert`: parse the alert file, exiting 3 when the file is
missing and 4 when its contents are not valid JSON. -/
def get_json_alert (fs : String → FileRead) (loc : String) : LoadResult :=
  match fs loc with
  | .json j => .ok j
  | .missing => .exit 3 ("# Alert file " ++ loc ++ " doesn't exist")
  | .badJson e => .exit 4 ("Failed getting json_alert " ++ e)

/-- `get_json_options`: parse the options file, exiting 3 when the file
is missing and 4 when its contents are not valid JSON.  (The decode
failure reuses the `json_alert` wording, as in the source.) -/
def get_json_options (fs : String → FileRead) (loc : String) : LoadResult :=
  match fs loc with
  | .json j => .ok j
  | .missing => .exit 3 ("# Option file " ++ loc ++ " doesn't exist")
  | .badJson e => .exit 4 ("Failed getting json_alert " ++ e)

/-- The "Agent" entry of `msg['fields']`, with the `str.format` text
`"({0}) - {1}"` applied to `alert['agent']['id']` and
`alert['agent']['name']`. -/
def agentField (aid aname : Json) : Json :=
  .obj [("title", .str "Agent"),
        ("value", .str ("(" ++ pyStr aid ++ ") - " ++ pyStr aname))]

/-- The "Agentless Host" entry of `msg['fields']`, holding
`alert['agentless']['host']` verbatim. -/
def agentlessField (host : Json) : Json :=
  .obj [("title", .str "Agentless Host"), ("value", host)]

/-- The "Location" entry of `msg['fields']`, holding `alert['location']`
verbatim. -/
def locationField (loc : Json) : Json :=
  .obj [("title", .str "Location"), ("value", loc)]

/-- The "Rule ID" entry of `msg['fields']`, with the `str.format` text
`"{0} _(Level {1})_"` applied to `alert['rule']['id']` and the raw
`level` value. -/
def ruleIdField (rid lvlJ : Json) : Json :=
  .obj [("title", .str "Rule ID"),
        ("value", .str (pyStr rid ++ " _(Level " ++ pyStr lvlJ ++ ")_"))]

/-- The severity colour chosen by `generate_msg` from the integer value
of `alert['rule']['level']`. -/
def colorOf (level : Int) : String :=
  if level ≤ 4 then "good"
  else if 5 ≤ level ∧ level ≤ 7 then "warning"
  else "danger"

/-- The `if 'agent' in alert:` block: no entry when the alert has no
`agent` key, the formatted entry when `agent` has both `id` and `name`,
and a raised `KeyError`/`TypeError` (`none`) otherwise. -/
def agent_fields (alert : Json) : Option (List Json) :=
  match alert.lookup? "agent" with
  | none => some []
  | some agent =>
    match agent.lookup? "id", agent.lookup? "name" with
    | some aid, some aname => some [agentField aid aname]
    | _, _ => none

/-- The `if 'agentless' in alert:` block, analogous to `agent_fields`. -/
def agentless_fields (alert : Json) : Option (List Json) :=
  match alert.lookup? "agentless" with
  | none => some []
  | some agentless =>
    match agentless.lookup? "host" with
    | some host => some [agentlessField host]
    | none => none

/-- Lines 167–202 of `generate_msg`: the message dict as built before
the options merge, in insertion order `color`, `pretext`, `title`,
`text`, `fields`, `ts`.  `none` models the exception raised when a
required key is missing (`KeyError`) or the level is not an integer
(`TypeError` in the comparison). -/
def base_msg (alert : Json) : Option (List (String × Json)) :=
  match alert.lookup? "rule" with
  | none => none
  | some rule =>
  match rule.lookup? "level" with
  | none => none
  | some lvlJ =>
  match lvlJ.asInt? with
  | none => none
  | some level =>
  match agent_fields alert, agentless_fields alert, alert.lookup? "location",
        rule.lookup? "id", alert.lookup? "id" with
  | some af, some alf, some loc, some rid, some ts =>
      some [("color", .str (colorOf level)),
            ("pretext", .str "WAZUH Alert"),
            ("title", (rule.lookup? "description").getD (.str "N/A")),
            ("text", (alert.lookup? "full_log").getD .null),
            ("fields", .arr (af ++ alf ++ [locationField loc, ruleIdField rid lvlJ])),
            ("ts", ts)]
  | _, _, _, _, _ => none

/-- `msg.update(options)` for an options dict: each item of `options`
sets its key in `msg`, in order (shallow merge, last write wins). -/
def dict_update (d : List (String × Json)) (kvs : List (String × Json)) :
    List (String × Json) :=
  kvs.foldl (fun acc kv => setKey acc kv.1 kv.2) d

/-- Lines 167–205 of `generate_msg`: the message dict after
`if(options): msg.update(options)`.  A truthy non-object value of
`options` makes `dict.update` raise (`none`); JSON arrays of pairs,
which `dict.update` would accept, are outside the model's options
domain (the options document is specified to be a JSON object). -/
def build_msg (alert options : Json) : Option (List (String × Json)) :=
  match base_msg alert with
  | none => none
  | some msg =>
    if options.truthy then
      match options with
      | .obj kvs => some (dict_update msg kvs)
      | _ => none
    else some msg

/-- `generate_msg`: the message dict wrapped as
`{'attachments': [msg]}` and serialized with `json.dumps`. -/
def generate_msg (alert options : Json) : Option String :=
  match build_msg alert options with
  | none => none
  | some msg => some (Json.dumps (.obj [("attachments", .arr [.obj msg])]))

/-- `process_args` (with the called loaders, message generation and the
dispatch to `send_msg` inlined as the source calls them): returns the
process outcome and the trace of emitted lines.  The source only calls
it from `main` with at least 4 arguments, so the subscripts
`args[ALERT_INDEX]` and `args[WEBHOOK_INDEX]` are total here (`getD`).
The trace stops at `send_msg`'s `"# In send msg"` line; the line logged
after the POST quotes the HTTP response, which is external to the
model. -/
def process_args (now : String) (args : List String) (fs : String → FileRead) :
    ProcResult × List String :=
  let alert_file_location := args.getD ALERT_INDEX ""
  let webhook := args.getD WEBHOOK_INDEX ""
  let options_file_location := find_options_file_location args
  let t0 := [dmsg now "# Starting", dmsg now "# Options file location",
             dmsg now options_file_location]
  match get_json_options fs options_file_location with
  | .exit c line => (.exited c, t0 ++ [dmsg now line])
  | .ok json_options =>
    let t1 := t0 ++ [dmsg now "# Processing options", dmsg now (pyStr json_options),
                     dmsg now "# Alert file location", dmsg now alert_file_location]
    match get_json_alert fs alert_file_location with
    | .exit c line => (.exited c, t1 ++ [dmsg now line])
    | .ok json_alert =>
      let t2 := t1 ++ [dmsg now "# Processing alert", dmsg now (pyStr json_alert),
                       dmsg now "# Generating message"]
      match generate_msg json_alert json_options with
      | none => (.excRaised, t2)
      | some msg =>
        if msg.length = 0 then (.excRaised, t2 ++ [dmsg now "# ERR - Empty message"])
        else (.sent msg webhook,
              t2 ++ [dmsg now msg, dmsg now "# Sending message", dmsg now "# In send msg"])

/-- `main`: with at least 4 arguments, append the invocation line to the
log and run `process_args`; otherwise append the `Wrong arguments` line,
emit the bad-arguments debug line and exit 2.  (`debug_enabled` only
selects which sinks receive the trace lines, not their content, so it
does not appear in the model; the `except` wrapper re-raises, which
`ProcResult.excRaised` already records.) -/
def wmain (now : String) (args : List String) (fs : String → FileRead) :
    ProcResult × List String :=
  if 4 ≤ args.length then
    let logline := now ++ " " ++ args.getD 1 "" ++ " " ++ args.getD 2 "" ++ " "
      ++ args.getD 3 "" ++ " " ++ args.getD 4 "" ++ " " ++ args.getD 5 "" ++ "\n"
    let r := process_args now args fs
    (r.1, logline :: r.2)
  else
    (.exited 2,
     [(now ++ " Wrong arguments") ++ "\n",
      dmsg now ("# Exiting: Bad arguments. Inputted: " ++ pyStr (.arr (args.map .str)))])

/-! ### The command record of `src/api/api/models/active_response_model.py` -/

/-- `ActiveResponse.__init__` stores the three constructor values in the
private attributes `_command`, `_custom` and `_arguments`.  `None`
defaults become `Option` values. -/
structure ActiveResponse where
  _command : Option String
  _custom : Bool
  _arguments : Option (List String)

/-- `ActiveResponse(command, custom, arguments)`. -/
def ActiveResponse.construct (command : Option String) (custom : Bool)
    (arguments : Option (List String)) : ActiveResponse :=
  { _command := command, _custom := custom, _arguments := arguments }

/-- The `command` property getter: returns `self._command`. -/
def ActiveResponse.command (r : ActiveResponse) : Option String := r._command

/-- The `custom` property getter: returns `self._custom`. -/
def ActiveResponse.custom (r : ActiveResponse) : Bool := r._custom

/-- The `arguments` property getter as written in the source: it
returns `self._command`, not `self._arguments`. -/
def ActiveResponse.arguments (r : ActiveResponse) : Option String := r._command

/-- A generic string-keyed mapping holding at most the three attributes
of the record (an absent field is an absent key). -/
structure ARMapping where
  command : Option String
  custom : Option Bool
  arguments : Option (List String)

/-- Modelled from the spec: the base model's mapping serialization
(`Model.to_dict` of `api.models.base_model_`) is not under `src/`.  Per
the spec's data model, serialization emits the record's three fields
under their attribute names (`attribute_map` is the identity). -/
def ActiveResponse.toMapping (r : ActiveResponse) : ARMapping :=
  { command := r._command, custom := some r._custom, arguments := r._arguments }

/-- Modelled from the spec: `api.util.deserialize_model`, called by
`ActiveResponse.from_dict`, is not under `src/`.  Per the spec,
`fromMapping` populates a record field-by-field from a generic
string-keyed mapping, silently accepting missing keys (which keep the
constructor defaults `command=None`, `custom=False`,
`arguments=None`). -/
def ActiveResponse.fromMapping (m : ARMapping) : ActiveResponse :=
  { _command := m.command, _custom := m.custom.getD false, _arguments := m.arguments }

/-! ### Basic lemmas about dict operations -/

theorem getKey_cons_self (k : String) (v : Json) (rest : List (String × Json)) :
    getKey ((k, v) :: rest) k = some v := by
  simp [getKey]

theorem getKey_cons_ne (k k' : String) (v : Json) (rest : List (String × Json))
    (h : k' ≠ k) : getKey ((k', v) :: rest) k = getKey rest k := by
  simp [getKey, h]

theorem getKey_setKey_self (d : List (String × Json)) (k : String) (v : Json) :
    getKey (setKey d k v) k = some v := by
  induction d with
  | nil => simp [setKey, getKey]
  | cons hd tl ih =>
    obtain ⟨k', v'⟩ := hd
    by_cases h : k' = k
    · subst h; simp [setKey, getKey]
    · simp [setKey, getKey, h, ih]

theorem getKey_setKey_ne (d : List (String × Json)) (k k' : String) (v : Json)
    (h : k' ≠ k) : getKey (setKey d k' v) k = getKey d k := by
  induction d with
  | nil => simp [setKey, getKey, h]
  | cons hd tl ih =>
    obtain ⟨k'', v''⟩ := hd
    by_cases h2 : k'' = k'
    · subst h2; simp [setKey, getKey, h]
    · simp [setKey, getKey, h2, ih]

theorem getKey_eq_none_of_not_mem (kvs : List (String × Json)) (k : String)
    (h : k ∉ kvs.map Prod.fst) : getKey kvs k = none := by
  induction kvs with
  | nil => simp [getKey]
  | cons hd tl ih =>
    obtain ⟨k', v'⟩ := hd
    simp only [List.map_cons, List.mem_cons] at h
    push_neg at h
    have hne : k' ≠ k := fun hh => h.1 hh.symm
    rw [getKey_cons_ne _ _ _ _ hne]
    exact ih h.2

theorem dict_update_cons (d : List (String × Json)) (k : String) (v : Json)
    (tl : List (String × Json)) :
    dict_update d ((k, v) :: tl) = dict_update (setKey d k v) tl := rfl

theorem getKey_dict_update_of_none (d kvs : List (String × Json)) (k : String)
    (h : getKey kvs k = none) : getKey (dict_update d kvs) k = getKey d k := by
  induction kvs generalizing d with
  | nil => simp [dict_update]
  | cons hd tl ih =>
    obtain ⟨k', v'⟩ := hd
    by_cases h2 : k' = k
    · subst h2; simp [getKey] at h
    · rw [getKey_cons_ne _ _ _ _ h2] at h
      rw [dict_update_cons, ih _ h, getKey_setKey_ne _ _ _ _ h2]

theorem getKey_dict_update_of_some (d kvs : List (String × Json)) (k : String)
    (v : Json) (hnd : (kvs.map Prod.fst).Nodup) (h : getKey kvs k = some v) :
    getKey (dict_update d kvs) k = some v := by
  induction kvs generalizing d with
  | nil => simp [getKey] at h
  | cons hd tl ih =>
    obtain ⟨k', v'⟩ := hd
    simp only [List.map_cons, List.nodup_cons] at hnd
    by_cases h2 : k' = k
    · rw [dict_update_cons,
          getKey_dict_update_of_none _ _ _
            (getKey_eq_none_of_not_mem _ _ (by rw [← h2]; exact hnd.1))]
      rw [← h2] at h ⊢
      rw [getKey_cons_self] at h
      injection h with hv
      rw [getKey_setKey_self, hv]
    · rw [getKey_cons_ne _ _ _ _ h2] at h
      rw [dict_update_cons]
      exact ih (setKey d k' v') hnd.2 h

/-! ### Inversion lemmas for message construction -/

theorem agent_fields_inv (alert : Json) (af : List Json)
    (h : agent_fields alert = some af) :
    (alert.lookup? "agent" = none ∧ af = []) ∨
    (∃ ag aid aname, alert.lookup? "agent" = some ag ∧
      ag.lookup? "id" = some aid ∧ ag.lookup? "name" = some aname ∧
      af = [agentField aid aname]) := by
  unfold agent_fields at h
  split at h
  next hag =>
    injection h with h
    exact Or.inl ⟨hag, h.symm⟩
  next ag hag =>
    split at h
    next aid aname hid hnm =>
      injection h with h
      exact Or.inr ⟨ag, aid, aname, hag, hid, hnm, h.symm⟩
    next => simp at h

theorem agentless_fields_inv (alert : Json) (alf : List Json)
    (h : agentless_fields alert = some alf) :
    (alert.lookup? "agentless" = none ∧ alf = []) ∨
    (∃ al host, alert.lookup? "agentless" = some al ∧
      al.lookup? "host" = some host ∧ alf = [agentlessField host]) := by
  unfold agentless_fields at h
  split at h
  next hal =>
    injection h with h
    exact Or.inl ⟨hal, h.symm⟩
  next al hal =>
    split at h
    next host hh =>
      injection h with h
      exact Or.inr ⟨al, host, hal, hh, h.symm⟩
    next => simp at h

theorem base_msg_inv (alert : Json) (msg : List (String × Json))
    (h : base_msg alert = some msg) :
    ∃ rule lvlJ level af alf loc rid ts,
      alert.lookup? "rule" = some rule ∧
      rule.lookup? "level" = some lvlJ ∧
      lvlJ.asInt? = some level ∧
      agent_fields alert = some af ∧
      agentless_fields alert = some alf ∧
      alert.lookup? "location" = some loc ∧
      rule.lookup? "id" = some rid ∧
      alert.lookup? "id" = some ts ∧
      msg = [("color", .str (colorOf level)),
             ("pretext", .str "WAZUH Alert"),
             ("title", (rule.lookup? "description").getD (.str "N/A")),
             ("text", (alert.lookup? "full_log").getD .null),
             ("fields", .arr (af ++ alf ++ [locationField loc, ruleIdField rid lvlJ])),
             ("ts", ts)] := by
  unfold base_msg at h
  split at h
  next => simp at h
  next rule hrule =>
    split at h
    next => simp at h
    next lvlJ hlvl =>
      split at h
      next => simp at h
      next level hint =>
        split at h
        next af alf loc rid ts haf half hloc hrid hts =>
          injection h with h
          exact ⟨rule, lvlJ, level, af, alf, loc, rid, ts,
                 hrule, hlvl, hint, haf, half, hloc, hrid, hts, h.symm⟩
        next => simp at h

/-! ### Claim theorems -/

/-- C3: for every Command Record, the getter for the `arguments` field
returns the value stored in the `command` field: after constructing a
record with `command = c` and `arguments = a`, reading the `arguments`
accessor yields `c` (whatever `a` is). -/
theorem c3_arguments_getter (c : String) (cu : Bool) (a : List String) :
    (ActiveResponse.construct (some c) cu (some a)).arguments = some c := rfl

/-- C9: round-tripping a Command Record through mapping serialization
and `fromMapping` preserves the `command` field:
`fromMapping(serialize(r)).command == r.command`. -/
theorem c9_roundtrip_command (r : ActiveResponse) :
    (ActiveResponse.fromMapping r.toMapping).command = r.command := rfl

/-- C2: for every alert whose `rule.level` is an integer `L`, the
message built by `generate_msg` has colour `"good"` when `L ≤ 4`,
`"warning"` when `5 ≤ L ≤ 7`, and `"danger"` when `L ≥ 8`, with all
band boundaries inclusive. -/
theorem c2_color_bands (alert rule : Json) (L : Int) (msg : List (String × Json))
    (hr : alert.lookup? "rule" = some rule)
    (hl : rule.lookup? "level" = some (.int L))
    (h : base_msg alert = some msg) :
    (L ≤ 4 → getKey msg "color" = some (.str "good")) ∧
    (5 ≤ L → L ≤ 7 → getKey msg "color" = some (.str "warning")) ∧
    (8 ≤ L → getKey msg "color" = some (.str "danger")) := by
  obtain ⟨rule', lvlJ, level, af, alf, loc, rid, ts, hrule, hlvl, hint,
          _, _, _, _, _, hmsg⟩ := base_msg_inv alert msg h
  rw [hr] at hrule
  injection hrule with hrule
  subst hrule
  rw [hl] at hlvl
  injection hlvl with hlvl
  subst hlvl
  simp only [Json.asInt?, Option.some.injEq] at hint
  subst hint
  subst hmsg
  refine ⟨fun h1 => ?_, fun h1 h2 => ?_, fun h1 => ?_⟩
  · have hc : colorOf L = "good" := by unfold colorOf; rw [if_pos h1]
    rw [getKey_cons_self, hc]
  · have hn : ¬ L ≤ 4 := by omega
    have hc : colorOf L = "warning" := by
      unfold colorOf; rw [if_neg hn, if_pos ⟨h1, h2⟩]
    rw [getKey_cons_self, hc]
  · have hn : ¬ L ≤ 4 := by omega
    have hn2 : ¬ (5 ≤ L ∧ L ≤ 7) := by omega
    have hc : colorOf L = "danger" := by unfold colorOf; rw [if_neg hn, if_neg hn2]
    rw [getKey_cons_self, hc]

/-- A minimal alert with level `L`, used to exercise the colour bands. -/
def bAlert (L : Int) : Json :=
  .obj [("rule", .obj [("level", .int L), ("id", .int 1)]),
        ("location", .str "l"), ("id", .str "1")]

/-- The rule object of `bAlert L`. -/
def bRule (L : Int) : Json := .obj [("level", .int L), ("id", .int 1)]

/-- The message `base_msg` builds from `bAlert L`. -/
def bMsg (L : Int) : List (String × Json) :=
  [("color", .str (colorOf L)), ("pretext", .str "WAZUH Alert"),
   ("title", .str "N/A"), ("text", .null),
   ("fields", .arr [locationField (.str "l"), ruleIdField (.int 1) (.int L)]),
   ("ts", .str "1")]

/-- Witness for C2 at the boundary levels 4, 5, 7 and 8. -/
theorem c2_color_bands_witness :
    getKey (bMsg 4) "color" = some (.str "good") ∧
    getKey (bMsg 5) "color" = some (.str "warning") ∧
    getKey (bMsg 7) "color" = some (.str "warning") ∧
    getKey (bMsg 8) "color" = some (.str "danger") :=
  ⟨(c2_color_bands (bAlert 4) (bRule 4) 4 (bMsg 4) rfl rfl rfl).1 (by decide),
   (c2_color_bands (bAlert 5) (bRule 5) 5 (bMsg 5) rfl rfl rfl).2.1 (by decide) (by decide),
   (c2_color_bands (bAlert 7) (bRule 7) 7 (bMsg 7) rfl rfl rfl).2.1 (by decide) (by decide),
   (c2_color_bands (bAlert 8) (bRule 8) 8 (bMsg 8) rfl rfl rfl).2.2 (by decide)⟩

theorem dumps_obj_ne_empty (kvs : List (String × Json)) :
    Json.dumps (.obj kvs) ≠ "" := by
  intro h
  have h2 := congrArg String.length h
  rw [show Json.dumps (.obj kvs) = "\x7b" ++ dumpsObj kvs ++ "\x7d" from rfl] at h2
  rw [String.length_append, String.length_append] at h2
  have e1 : ("\x7b" : String).length = 1 := rfl
  have e2 : ("\x7d" : String).length = 1 := rfl
  have e3 : ("" : String).length = 0 := rfl
  rw [e1, e2, e3] at h2
  omega

/-- C8: on every input on which `generate_msg` returns, the returned
serialized string is non-empty (it is the `json.dumps` of an object, so
it starts with a brace), making the `if not len(msg)` fatal branch of
`process_args` unreachable. -/
theorem c8_nonempty (alert options : Json) : generate_msg alert options ≠ some "" := by
  unfold generate_msg
  cases hb : build_msg alert options with
  | none => simp
  | some msg =>
    intro h
    injection h with h
    exact dumps_obj_ne_empty _ h

/-- Witness for C8 at a concrete alert. -/
theorem c8_nonempty_witness : generate_msg (bAlert 3) (Json.obj []) ≠ some "" :=
  c8_nonempty (bAlert 3) (Json.obj [])

/-- The keys `generate_msg` reads unconditionally (`rule` with `level`
and `id`, top-level `location` and `id`) together with the keys read
when an `agent` or `agentless` object is present. -/
def has_required_keys (alert : Json) : Bool :=
  match alert.lookup? "rule" with
  | none => false
  | some rule =>
    (rule.lookup? "level").isSome && (rule.lookup? "id").isSome &&
    (alert.lookup? "location").isSome && (alert.lookup? "id").isSome &&
    (match alert.lookup? "agent" with
     | none => true
     | some ag => (ag.lookup? "id").isSome && (ag.lookup? "name").isSome) &&
    (match alert.lookup? "agentless" with
     | none => true
     | some al => (al.lookup? "host").isSome)

/-- C10: `generate_msg` is total only on alerts carrying all the keys of
`has_required_keys`; on every alert missing one of them it raises
(`none`) instead of producing a message, whatever the options are. -/
theorem c10_required_keys (alert options : Json)
    (h : has_required_keys alert = false) : generate_msg alert options = none := by
  unfold generate_msg
  suffices hb : build_msg alert options = none by rw [hb]
  unfold build_msg
  suffices hbm : base_msg alert = none by rw [hbm]
  cases hbm : base_msg alert with
  | none => rfl
  | some msg =>
    exfalso
    obtain ⟨rule, lvlJ, level, af, alf, loc, rid, ts, hrule, hlvl, hint,
            haf, half, hloc, hrid, hts, -⟩ := base_msg_inv alert msg hbm
    unfold has_required_keys at h
    rw [hrule] at h
    rcases agent_fields_inv alert af haf with ⟨hag, -⟩ | ⟨ag, aid, aname, hag, hid, hnm, -⟩ <;>
    rcases agentless_fields_inv alert alf half with ⟨hal, -⟩ | ⟨al, host, hal, hh, -⟩ <;>
      simp_all

/-- Witness for C10: the empty alert object misses every required key,
and `generate_msg` raises on it. -/
theorem c10_required_keys_witness :
    has_required_keys (Json.obj []) = false ∧
    generate_msg (Json.obj []) (Json.obj []) = none :=
  ⟨rfl, c10_required_keys (Json.obj []) (Json.obj []) rfl⟩

/-- C7: for every alert and every non-empty options object,
`generate_msg` merges the options keys into the generated message
shallowly and last-write-wins — a key present in the options determines
the merged value, a key absent from the options keeps the generated
value — and the returned string is the JSON serialization of
`{"attachments": [message]}`. -/
theorem c7_options_merge (alert : Json) (kvs base : List (String × Json))
    (k : String) (hne : kvs ≠ []) (hnd : (kvs.map Prod.fst).Nodup)
    (hb : base_msg alert = some base) :
    generate_msg alert (.obj kvs)
      = some (Json.dumps (.obj [("attachments", .arr [.obj (dict_update base kvs)])])) ∧
    ((getKey kvs k).isSome = false →
      getKey (dict_update base kvs) k = getKey base k) ∧
    ((getKey kvs k).isSome = true →
      getKey (dict_update base kvs) k = getKey kvs k) := by
  have htr : (Json.obj kvs).truthy = true := by
    cases kvs with
    | nil => exact absurd rfl hne
    | cons a as => rfl
  refine ⟨?_, fun h => ?_, fun h => ?_⟩
  · simp [generate_msg, build_msg, hb, htr]
  · apply getKey_dict_update_of_none
    cases hk : getKey kvs k with
    | none => rfl
    | some v => rw [hk] at h; simp at h
  · cases hk : getKey kvs k with
    | none => rw [hk] at h; simp at h
    | some v => exact getKey_dict_update_of_some base kvs k v hnd hk

/-- The end-to-end example alert of the spec (§8). -/
def exAlertFull : Json :=
  .obj [("rule", .obj [("level", .int 3), ("description", .str "Test"), ("id", .int 100)]),
        ("full_log", .str "x"), ("id", .str "1"), ("location", .str "loc"),
        ("agent", .obj [("id", .str "001"), ("name", .str "a1")])]

/-- The rule object of `exAlertFull`. -/
def exRule : Json := .obj [("level", .int 3), ("description", .str "Test"), ("id", .int 100)]

/-- The fields sequence `base_msg` builds from `exAlertFull`. -/
def exFields : List Json :=
  [agentField (.str "001") (.str "a1"), locationField (.str "loc"),
   ruleIdField (.int 100) (.int 3)]

/-- The message `base_msg` builds from `exAlertFull`. -/
def exMsg : List (String × Json) :=
  [("color", .str "good"), ("pretext", .str "WAZUH Alert"),
   ("title", .str "Test"), ("text", .str "x"),
   ("fields", .arr exFields), ("ts", .str "1")]

/-- Witness for C7: merging `{"channel": "#alerts"}` into the example
message adds the `channel` key and leaves `color` untouched. -/
theorem c7_options_merge_witness :
    generate_msg exAlertFull (.obj [("channel", Json.str "#alerts")])
      = some (Json.dumps (.obj [("attachments",
          .arr [.obj (dict_update exMsg [("channel", Json.str "#alerts")])])])) ∧
    getKey (dict_update exMsg [("channel", Json.str "#alerts")]) "color"
      = getKey exMsg "color" ∧
    getKey (dict_update exMsg [("channel", Json.str "#alerts")]) "channel"
      = some (Json.str "#alerts") :=
  ⟨(c7_options_merge exAlertFull [("channel", Json.str "#alerts")] exMsg "color"
      (by simp) (by simp) rfl).1,
   (c7_options_merge exAlertFull [("channel", Json.str "#alerts")] exMsg "color"
      (by simp) (by simp) rfl).2.1 rfl,
   (c7_options_merge exAlertFull [("channel", Json.str "#alerts")] exMsg "channel"
      (by simp) (by simp) rfl).2.2 rfl⟩

/-- C4: with fewer than 4 arguments the entry operation appends a log
line containing `Wrong arguments`, terminates with exit code 2, and is
independent of the file system (no file is read); the outcome is
`exited 2`, not a sent message. -/
theorem c4_wrong_arguments (now : String) (args : List String)
    (fs fs' : String → FileRead) (h : args.length < 4) :
    (wmain now args fs).1 = ProcResult.exited 2 ∧
    wmain now args fs = wmain now args fs' ∧
    ("Wrong arguments" : String).data <:+: ((wmain now args fs).2.headD "").data := by
  have h4 : ¬ 4 ≤ args.length := by omega
  refine ⟨?_, ?_, ?_⟩
  · unfold wmain; rw [if_neg h4]
  · unfold wmain; rw [if_neg h4, if_neg h4]
  · unfold wmain
    rw [if_neg h4]
    show ("Wrong arguments" : String).data <:+: ((now ++ " Wrong arguments") ++ "\n").data
    refine ⟨now.data ++ [' '], ['\n'], ?_⟩
    rw [String.data_append, String.data_append]
    have e1 : (" Wrong arguments" : String).data
        = ' ' :: ("Wrong arguments" : String).data := rfl
    have e2 : ("\n" : String).data = ['\n'] := rfl
    rw [e1, e2]
    simp

/-- Witness for C4 on a one-element argument vector and two unrelated
file systems. -/
theorem c4_wrong_arguments_witness :
    (wmain "T" ["slack.py"] (fun _ => FileRead.missing)).1 = ProcResult.exited 2 ∧
    wmain "T" ["slack.py"] (fun _ => FileRead.missing)
      = wmain "T" ["slack.py"] (fun _ => FileRead.json .null) ∧
    ("Wrong arguments" : String).data
      <:+: ((wmain "T" ["slack.py"] (fun _ => FileRead.missing)).2.headD "").data :=
  c4_wrong_arguments "T" ["slack.py"] (fun _ => FileRead.missing)
    (fun _ => FileRead.json .null) (by decide)

/-- C5: during options/alert loading, a missing file terminates the
process with exit code 3 and an invalid-JSON file with exit code 4, in
each case after emitting the loader's log line; the outcome is an
`exited` code (the pipeline never reaches message construction or the
HTTP dispatch on these paths). -/
theorem c5_load_failures (now : String) (args : List String)
    (fs : String → FileRead) (e : String) (jopt : Json) :
    (fs (find_options_file_location args) = .missing →
      (process_args now args fs).1 = ProcResult.exited 3 ∧
      dmsg now ("# Option file " ++ find_options_file_location args ++ " doesn't exist")
        ∈ (process_args now args fs).2) ∧
    (fs (find_options_file_location args) = .badJson e →
      (process_args now args fs).1 = ProcResult.exited 4 ∧
      dmsg now ("Failed getting json_alert " ++ e) ∈ (process_args now args fs).2) ∧
    (fs (find_options_file_location args) = .json jopt →
      fs (args.getD ALERT_INDEX "") = .missing →
      (process_args now args fs).1 = ProcResult.exited 3 ∧
      dmsg now ("# Alert file " ++ args.getD ALERT_INDEX "" ++ " doesn't exist")
        ∈ (process_args now args fs).2) ∧
    (fs (find_options_file_location args) = .json jopt →
      fs (args.getD ALERT_INDEX "") = .badJson e →
      (process_args now args fs).1 = ProcResult.exited 4 ∧
      dmsg now ("Failed getting json_alert " ++ e) ∈ (process_args now args fs).2) := by
  refine ⟨fun h1 => ?_, fun h1 => ?_, fun h1 h2 => ?_, fun h1 h2 => ?_⟩
  · constructor <;> simp [process_args, get_json_options, h1]
  · constructor <;> simp [process_args, get_json_options, h1]
  · simp only [List.getD, List.get?_eq_getElem?] at h2
    constructor <;> simp [process_args, get_json_options, get_json_alert, h1, h2]
  · simp only [List.getD, List.get?_eq_getElem?] at h2
    constructor <;> simp [process_args, get_json_options, get_json_alert, h1, h2]

/-- Argument vector naming an options file, for the C5 witness. -/
def exArgsOpts : List String := ["slack.py", "a.json", "x", "https://hook", "o-options"]

/-- Witness for C5: the four failure combinations, each on its own
concrete file system. -/
theorem c5_load_failures_witness :
    (process_args "T" exArgsOpts (fun _ => FileRead.missing)).1 = ProcResult.exited 3 ∧
    (process_args "T" exArgsOpts (fun _ => FileRead.badJson "err")).1 = ProcResult.exited 4 ∧
    (process_args "T" exArgsOpts
      (fun p => if p = "o-options" then FileRead.json (.obj []) else FileRead.missing)).1
      = ProcResult.exited 3 ∧
    (process_args "T" exArgsOpts
      (fun p => if p = "o-options" then FileRead.json (.obj []) else FileRead.badJson "err")).1
      = ProcResult.exited 4 :=
  ⟨((c5_load_failures "T" exArgsOpts (fun _ => FileRead.missing) "err" (.obj [])).1
      rfl).1,
   ((c5_load_failures "T" exArgsOpts (fun _ => FileRead.badJson "err") "err" (.obj [])).2.1
      rfl).1,
   ((c5_load_failures "T" exArgsOpts
      (fun p => if p = "o-options" then FileRead.json (.obj []) else FileRead.missing)
      "err" (.obj [])).2.2.1 rfl rfl).1,
   ((c5_load_failures "T" exArgsOpts
      (fun p => if p = "o-options" then FileRead.json (.obj []) else FileRead.badJson "err")
      "err" (.obj [])).2.2.2 rfl rfl).1⟩

/-- An argument vector of length 4 with no argument at index ≥ 4 (so
none ending in `options`). -/
def exArgsNoOpts : List String := ["slack.py", "/tmp/alert.json", "x", "https://hook"]

/-- A file system holding a well-formed alert at the path named by
`exArgsNoOpts` and nothing else; in particular no file exists at the
empty path (no real file system names a file by the empty string). -/
def exFsNoOpts : String → FileRead :=
  fun p => if p = "/tmp/alert.json" then FileRead.json (bAlert 3) else FileRead.missing

/-- C1 counterexample: on an argument vector of length ≥ 4 in which no
argument at index ≥ 4 ends in `options`, the pipeline does NOT proceed
with an empty options object — it terminates with exit code 3 on
account of the missing options file (the options-file path stays `''`,
and `get_json_options` fails to open it), never reaching alert loading,
message construction or dispatch. -/
theorem c1_counterexample :
    (wmain "T" exArgsNoOpts exFsNoOpts).1 = ProcResult.exited 3 ∧
    dmsg "T" "# Option file  doesn't exist" ∈ (wmain "T" exArgsNoOpts exFsNoOpts).2 := by
  constructor
  · rfl
  · show _ ∈ (wmain "T" exArgsNoOpts exFsNoOpts).2
    rw [show (wmain "T" exArgsNoOpts exFsNoOpts).2
        = ["T /tmp/alert.json x https://hook  \n",
           dmsg "T" "# Starting", dmsg "T" "# Options file location", dmsg "T" "",
           dmsg "T" "# Option file  doesn't exist"] from rfl]
    simp

/-- C1 amended: for every argument vector of length ≥ 4 in which no
argument at index ≥ 4 ends in `options`, the options-file path remains
the empty string; since no file exists at the empty path, the pipeline
logs that the option file doesn't exist and terminates with exit code 3
before alert loading, message construction or dispatch. -/
theorem c1_amended (now : String) (args : List String) (fs : String → FileRead)
    (h4 : 4 ≤ args.length)
    (hno : ∀ a ∈ args.drop 4, ends_with_options a = false)
    (hfs : fs "" = FileRead.missing) :
    (wmain now args fs).1 = ProcResult.exited 3 ∧
    dmsg now "# Option file  doesn't exist" ∈ (wmain now args fs).2 := by
  have hfind : find_options_file_location args = "" := by
    unfold find_options_file_location
    have : (args.drop 4).find? ends_with_options = none := by
      rw [List.find?_eq_none]
      intro x hx
      rw [hno x hx]
      simp
    rw [this]
  have hmsg : ("# Option file  doesn't exist" : String)
      = "# Option file " ++ "" ++ " doesn't exist" := rfl
  constructor
  · unfold wmain
    rw [if_pos h4]
    show (process_args now args fs).1 = ProcResult.exited 3
    simp [process_args, get_json_options, hfind, hfs]
  · unfold wmain
    rw [if_pos h4]
    show _ ∈ _ :: (process_args now args fs).2
    rw [hmsg]
    simp [process_args, get_json_options, hfind, hfs]

/-- Witness for the amended C1, with a fifth argument (`debug`) that
does not end in `options`. -/
theorem c1_amended_witness :
    (wmain "T" (exArgsNoOpts ++ ["debug"]) exFsNoOpts).1 = ProcResult.exited 3 ∧
    dmsg "T" "# Option file  doesn't exist"
      ∈ (wmain "T" (exArgsNoOpts ++ ["debug"]) exFsNoOpts).2 :=
  c1_amended "T" (exArgsNoOpts ++ ["debug"]) exFsNoOpts (by decide)
    (by decide) rfl

/-- Whether some entry of a fields sequence is an object whose `title`
key holds the string `t`. -/
def hasFieldTitled (fields : List Json) (t : String) : Bool :=
  fields.any (fun f =>
    match f.lookup? "title" with
    | some (Json.str s) => s == t
    | _ => false)

/-- C6: for every alert accepted by `generate_msg`, the message's title
is the rule description when present and `"N/A"` otherwise; `ts` is the
alert's top-level `id`; the fields sequence contains the `Location`
entry with the alert's location and the `Rule ID` entry formatted
`"<rule.id> _(Level <rule.level>)_"`; an `Agent` entry with value
`"(<agent.id>) - <agent.name>"` is present exactly when the alert has an
`agent` object, and an `Agentless Host` entry exactly when it has an
`agentless` object (both entries when both objects are present, since
the two implications are independent). -/
theorem c6_msg_fields (alert rule : Json) (msg : List (String × Json))
    (fields : List Json) (loc rid lvlJ agent aid aname agentless host : Json)
    (hr : alert.lookup? "rule" = some rule)
    (hlvl : rule.lookup? "level" = some lvlJ)
    (hloc : alert.lookup? "location" = some loc)
    (hrid : rule.lookup? "id" = some rid)
    (h : base_msg alert = some msg)
    (hf : getKey msg "fields" = some (.arr fields)) :
    getKey msg "title" = some ((rule.lookup? "description").getD (.str "N/A")) ∧
    getKey msg "ts" = alert.lookup? "id" ∧
    locationField loc ∈ fields ∧
    ruleIdField rid lvlJ ∈ fields ∧
    (alert.lookup? "agent" = some agent → agent.lookup? "id" = some aid →
      agent.lookup? "name" = some aname → agentField aid aname ∈ fields) ∧
    (alert.lookup? "agent" = none → hasFieldTitled fields "Agent" = false) ∧
    (alert.lookup? "agentless" = some agentless →
      agentless.lookup? "host" = some host → agentlessField host ∈ fields) ∧
    (alert.lookup? "agentless" = none →
      hasFieldTitled fields "Agentless Host" = false) := by
  obtain ⟨rule', lvlJ', level, af, alf, loc', rid', ts, hrule, hlvl', -,
          haf, half, hloc', hrid', hts, hmsg⟩ := base_msg_inv alert msg h
  rw [hr] at hrule; injection hrule with e; subst e
  rw [hlvl] at hlvl'; injection hlvl' with e; subst e
  rw [hloc] at hloc'; injection hloc' with e; subst e
  rw [hrid] at hrid'; injection hrid' with e; subst e
  subst hmsg
  rw [getKey_cons_ne _ _ _ _ (by decide), getKey_cons_ne _ _ _ _ (by decide),
      getKey_cons_ne _ _ _ _ (by decide), getKey_cons_ne _ _ _ _ (by decide),
      getKey_cons_self] at hf
  injection hf with hf
  injection hf with hf
  subst hf
  refine ⟨?_, ?_, ?_, ?_, ?_, ?_, ?_, ?_⟩
  · rw [getKey_cons_ne _ _ _ _ (by decide), getKey_cons_ne _ _ _ _ (by decide),
        getKey_cons_self]
  · rw [hts, getKey_cons_ne _ _ _ _ (by decide), getKey_cons_ne _ _ _ _ (by decide),
        getKey_cons_ne _ _ _ _ (by decide), getKey_cons_ne _ _ _ _ (by decide),
        getKey_cons_ne _ _ _ _ (by decide), getKey_cons_self]
  · simp
  · simp
  · intro hag hid hnm
    rcases agent_fields_inv alert af haf with ⟨hag', -⟩ |
      ⟨ag, aid', aname', hag', hid', hnm', hafeq⟩
    · rw [hag] at hag'; cases hag'
    · rw [hag] at hag'; injection hag' with e; subst e
      rw [hid] at hid'; injection hid' with e; subst e
      rw [hnm] at hnm'; injection hnm' with e; subst e
      subst hafeq
      simp
  · intro hag
    rcases agent_fields_inv alert af haf with ⟨-, hafeq⟩ | ⟨ag, aid', aname', hag', -, -, -⟩
    · subst hafeq
      rcases agentless_fields_inv alert alf half with ⟨-, halfeq⟩ |
        ⟨al, host', -, -, halfeq⟩ <;> subst halfeq <;> rfl
    · rw [hag] at hag'; cases hag'
  · intro hal hh
    rcases agentless_fields_inv alert alf half with ⟨hal', -⟩ |
      ⟨al, host', hal', hh', halfeq⟩
    · rw [hal] at hal'; cases hal'
    · rw [hal] at hal'; injection hal' with e; subst e
      rw [hh] at hh'; injection hh' with e; subst e
      subst halfeq
      simp
  · intro hal
    rcases agentless_fields_inv alert alf half with ⟨-, halfeq⟩ | ⟨al, host', hal', -, -⟩
    · subst halfeq
      rcases agent_fields_inv alert af haf with ⟨-, hafeq⟩ |
        ⟨ag, aid', aname', -, -, -, hafeq⟩ <;> subst hafeq <;> rfl
    · rw [hal] at hal'; cases hal'

/-- Witness for C6 on the spec's end-to-end example alert (which has an
`agent` object and no `agentless` object). -/
theorem c6_msg_fields_witness :
    getKey exMsg "title" = some (Json.str "Test") ∧
    getKey exMsg "ts" = some (Json.str "1") ∧
    locationField (Json.str "loc") ∈ exFields ∧
    ruleIdField (Json.int 100) (Json.int 3) ∈ exFields ∧
    agentField (Json.str "001") (Json.str "a1") ∈ exFields ∧
    hasFieldTitled exFields "Agentless Host" = false := by
  have h := c6_msg_fields exAlertFull exRule exMsg exFields (Json.str "loc")
    (Json.int 100) (Json.int 3)
    (Json.obj [("id", Json.str "001"), ("name", Json.str "a1")])
    (Json.str "001") (Json.str "a1") Json.null Json.null
    rfl rfl rfl rfl rfl rfl
  exact ⟨h.1, h.2.1, h.2.2.1, h.2.2.2.1, h.2.2.2.2.1 rfl rfl rfl,
         h.2.2.2.2.2.2.2 rfl⟩
